import Mathlib

/-!
Verification of the creature-capture guardian module
(src/mod_creature_capture.cpp) against its natural-language specification.

The C++ module is shallowly embedded: each relevant source function becomes
an executable Lean definition over plain data (machine integers become `Nat`
with explicit truncation where overflow matters, `std::string` becomes
`List Char`, engine handles become `Nat` identifiers with `0` as the empty
GUID).  Theorems below settle the frozen claims about the module.
-/

namespace CreatureCapture

/-! ## Constants from the source -/

def MAX_GUARDIAN_SLOTS : Nat := 4
def MAX_GUARDIAN_SPELLS : Nat := 8

def ARCHETYPE_DPS : Nat := 0
def ARCHETYPE_TANK : Nat := 1
def ARCHETYPE_HEALER : Nat := 2

/-! ## Data model

`GuardianSlotData` mirrors the C++ struct of the same name.  `ObjectGuid`
is modelled as a `Nat`, with `0` playing the role of the empty GUID, so
`IsActive` (C++: `!guardianGuid.IsEmpty()`) becomes `guardianGuid ≠ 0`.
-/

structure GuardianSlotData where
  guardianGuid : Nat
  guardianEntry : Nat
  guardianLevel : Nat
  guardianHealth : Nat
  guardianPower : Nat
  guardianPowerType : Nat
  archetype : Nat
  spellSlots : List Nat
  displayId : Nat
  equipmentId : Int
  dismissed : Bool
  savedToDb : Bool
deriving DecidableEq, Repr

/-- The all-empty slot produced by `GuardianSlotData::Clear()`. -/
def emptySlot : GuardianSlotData :=
  { guardianGuid := 0
    guardianEntry := 0
    guardianLevel := 0
    guardianHealth := 0
    guardianPower := 0
    guardianPowerType := 0
    archetype := ARCHETYPE_DPS
    spellSlots := List.replicate MAX_GUARDIAN_SPELLS 0
    displayId := 0
    equipmentId := 0
    dismissed := false
    savedToDb := false }

/-- C++ `GuardianSlotData::IsOccupied`: `guardianEntry != 0`. -/
def GuardianSlotData.IsOccupied (s : GuardianSlotData) : Bool :=
  s.guardianEntry != 0

/-- C++ `GuardianSlotData::IsActive`: `!guardianGuid.IsEmpty()`. -/
def GuardianSlotData.IsActive (s : GuardianSlotData) : Bool :=
  s.guardianGuid != 0

/-- A live guardian instance (the state of the spawned `Creature` that the
module reads and writes through the world engine). -/
structure LiveGuardian where
  entry : Nat
  level : Nat
  maxHealth : Nat
  health : Nat
  maxPower : Nat
  power : Nat
  powerType : Nat
  alive : Bool
  archetype : Nat
  spellSlots : List Nat
deriving DecidableEq, Repr

/-! ## Cooldown commitment (`CapturedGuardianAI::ApplySpellCooldown`)

The source reads three catalog values (`RecoveryTime`,
`CategoryRecoveryTime`, `StartRecoveryTime`, all in milliseconds) and a
random jitter `urand(500, 1500)`; the jitter is passed in explicitly here.
-/

def ApplySpellCooldown (recoveryTime categoryRecoveryTime startRecoveryTime : Nat)
    (isHeal : Bool) (jitter : Nat) : Nat :=
  if isHeal && decide (recoveryTime < 10000) then
    10000
  else
    let c1 := if categoryRecoveryTime > recoveryTime then categoryRecoveryTime else recoveryTime
    let c2 := if startRecoveryTime > c1 then startRecoveryTime else c1
    let c3 := if c2 = 0 then 2000 else c2
    c3 + jitter

/-! ## Out-of-combat regeneration (`CapturedGuardianAI::UpdateAI`, regen timer)

On each regen-timer expiry while out of combat the source adds
`GetMaxHealth() * 6 / 100` (at least 1) to current health, clamped to the
maximum, and does the same for the mana pool when one exists.
-/

def regenHealthStep (maxHealth curHealth : Nat) : Nat :=
  if curHealth < maxHealth then
    let amount0 := maxHealth * 6 / 100
    let amount := if amount0 < 1 then 1 else amount0
    min (curHealth + amount) maxHealth
  else curHealth

def regenManaStep (maxMana curMana : Nat) : Nat :=
  if 0 < maxMana ∧ curMana < maxMana then
    let amount0 := maxMana * 6 / 100
    let amount := if amount0 < 1 then 1 else amount0
    min (curMana + amount) maxMana
  else curMana

/-! ## Claim C8 — committed cooldowns -/

/-- C8 as stated predicts that a healing ability whose raw catalog cooldown
is already at least 10 s commits exactly the raw value.  The code puts such
a heal through the generic branch, which adds the random jitter: with
`RecoveryTime = 12000` and jitter 500 the committed cooldown is 12500, not
12000. -/
theorem healCooldownAboveFloorGetsJitter :
    ApplySpellCooldown 12000 0 0 true 500 = 12500 ∧
      ApplySpellCooldown 12000 0 0 true 500 ≠ 12000 := by
  constructor <;> decide

/-- C8 (amended): after every successful cast the committed cooldown is
strictly positive; a healing ability with raw cooldown below 10 s commits
exactly 10 s (no jitter); any other cast — a non-heal, or a heal whose raw
cooldown is at least 10 s — commits
`max(base, category, charge-recovery)`, replaced by the 2 s default when
that maximum is zero, plus the random jitter of 0.5–1.5 s. -/
theorem applySpellCooldown_spec (rec cat start jitter : Nat) (isHeal : Bool)
    (hj : 500 ≤ jitter ∧ jitter ≤ 1500) :
    0 < ApplySpellCooldown rec cat start isHeal jitter ∧
    (isHeal = true → rec < 10000 →
      ApplySpellCooldown rec cat start isHeal jitter = 10000) ∧
    ((isHeal = false ∨ 10000 ≤ rec) →
      ApplySpellCooldown rec cat start isHeal jitter =
        (if max rec (max cat start) = 0 then 2000 else max rec (max cat start)) + jitter) := by
  obtain ⟨hj1, _⟩ := hj
  refine ⟨?_, ?_, ?_⟩
  · unfold ApplySpellCooldown
    dsimp only
    split_ifs <;> omega
  · intro hh hrec
    simp [ApplySpellCooldown, hh, hrec]
  · intro hcase
    have hcond : (isHeal && decide (rec < 10000)) = false := by
      rcases hcase with h | h
      · simp [h]
      · simp [Nat.not_lt.mpr h]
    unfold ApplySpellCooldown
    rw [hcond]
    dsimp only
    simp only [Bool.false_eq_true, if_false]
    split_ifs <;> omega

/-- Witness for `applySpellCooldown_spec` at a concrete input. -/
theorem applySpellCooldown_spec_witness :
    (500 ≤ 700 ∧ 700 ≤ 1500) ∧
      (0 < ApplySpellCooldown 0 0 0 false 700 ∧
       (false = true → 0 < 10000 → ApplySpellCooldown 0 0 0 false 700 = 10000) ∧
       ((false = false ∨ 10000 ≤ 0) →
         ApplySpellCooldown 0 0 0 false 700 =
           (if max 0 (max 0 0) = 0 then 2000 else max 0 (max 0 0)) + 700)) :=
  ⟨by decide, applySpellCooldown_spec 0 0 0 700 false (by decide)⟩

/-! ## Claim C9 — idle regeneration -/

/-- C9 as stated predicts recovery of 6 % of the *missing* health.  The
code recovers 6 % of the *maximum*: at max 1000 and current 900 it restores
60 (to 960), while 6 % of the missing 100 (with the minimum-1 rule) would
restore 6 (to 906). -/
theorem regenRestoresPctOfMaxNotMissing :
    regenHealthStep 1000 900 = 960 ∧
      900 + max ((1000 - 900) * 6 / 100) 1 = 906 ∧
      regenHealthStep 1000 900 ≠ 906 := by
  refine ⟨by decide, by decide, by decide⟩

/-- C9 (amended): on each regen-timer expiry while idle, a guardian with
non-full health recovers 6 % of its maximum health (and, for a non-empty
mana pool, 6 % of its maximum mana), minimum 1 unit, clamped to the
maximum; a non-full pool therefore always strictly recovers and never
exceeds its maximum. -/
theorem regenStep_spec (maxH curH maxM curM : Nat)
    (hH : curH < maxH) (hM : curM < maxM) :
    regenHealthStep maxH curH = min (curH + max (maxH * 6 / 100) 1) maxH ∧
    curH < regenHealthStep maxH curH ∧
    regenHealthStep maxH curH ≤ maxH ∧
    regenManaStep maxM curM = min (curM + max (maxM * 6 / 100) 1) maxM ∧
    curM < regenManaStep maxM curM ∧
    regenManaStep maxM curM ≤ maxM := by
  have hM0 : 0 < maxM := by omega
  unfold regenHealthStep regenManaStep
  rw [if_pos hH, if_pos ⟨hM0, hM⟩]
  dsimp only
  refine ⟨?_, ?_, ?_, ?_, ?_, ?_⟩ <;> split_ifs <;> omega

/-- Witness for `regenStep_spec` at a concrete input. -/
theorem regenStep_spec_witness :
    (7 : Nat) < 10 ∧
      (regenHealthStep 1000 900 = min (900 + max (1000 * 6 / 100) 1) 1000 ∧
       900 < regenHealthStep 1000 900 ∧
       regenHealthStep 1000 900 ≤ 1000 ∧
       regenManaStep 10 7 = min (7 + max (10 * 6 / 100) 1) 10 ∧
       7 < regenManaStep 10 7 ∧
       regenManaStep 10 7 ≤ 10) :=
  ⟨by decide, regenStep_spec 1000 900 10 7 (by decide) (by decide)⟩

/-! ## Snapshot / dismiss / summon lifecycle

`SnapshotGuardianSlot` copies live resource and ability state into the
slot.  In the source the live creature is re-resolved from the slot GUID;
here the resolution result is passed in as `resolved` (`none` models a
stale handle the world cannot resolve).
-/

def SnapshotGuardianSlot (s : GuardianSlotData) (resolved : Option LiveGuardian) :
    GuardianSlotData :=
  if s.IsActive then
    match resolved with
    | some g =>
      { s with
        guardianEntry := g.entry
        guardianLevel := g.level
        guardianHealth := g.health
        guardianPowerType := g.powerType
        guardianPower := g.power
        spellSlots := g.spellSlots }
    | none => s
  else s

/-- Effect of `SaveGuardianSlotToDb` on the slot itself: a no-op for an
unoccupied slot, otherwise it marks the slot saved. -/
def saveSlot (s : GuardianSlotData) : GuardianSlotData :=
  if s.guardianEntry = 0 then s else { s with savedToDb := true }

inductive DismissOutcome where
  | ok
  | okStale
  | notActive
deriving DecidableEq, Repr

/-- `.capture dismiss` (`HandleDismissCommand`) applied to the resolved
slot: fails with `NotActive` when the slot has no live handle; otherwise
snapshots, clears the handle (`DismissGuardianSlot`), marks the slot
dismissed and saves it. -/
def commandDismissOnSlot (s : GuardianSlotData) (resolved : Option LiveGuardian) :
    DismissOutcome × GuardianSlotData :=
  if s.IsActive then
    let s1 := SnapshotGuardianSlot s resolved
    let s2 := { s1 with guardianGuid := 0, dismissed := true }
    (.ok, saveSlot s2)
  else (.notActive, s)

/-- Tesseract gossip `TESSERACT_ACTION_DISMISS`: fails with `NotActive`
when the slot has no live handle; with a live, alive instance it
snapshots, despawns, clears the handle, marks dismissed and saves; a
stale or dead handle is cleared without a snapshot or save. -/
def gossipDismissSlot (s : GuardianSlotData) (resolved : Option LiveGuardian) :
    DismissOutcome × GuardianSlotData :=
  if s.IsActive then
    match resolved with
    | some g =>
      if g.alive then
        let s1 := SnapshotGuardianSlot s (some g)
        (.ok, saveSlot { s1 with guardianGuid := 0, dismissed := true })
      else (.okStale, { s with guardianGuid := 0, dismissed := true })
    | none => (.okStale, { s with guardianGuid := 0, dismissed := true })
  else (.notActive, s)

/-- The respawned instance's maximum health: `SummonCapturedGuardian`
rescales the template maximum when `config.healthPct != 100`. -/
def effectiveMaxHealth (baseMaxHealth healthPct : Nat) : Nat :=
  if healthPct ≠ 100 then baseMaxHealth * healthPct / 100 else baseMaxHealth

/-- `SummonCapturedGuardian`: spawn a fresh instance at full health with
the stored identity, level, archetype and ability array installed in its
AI.  `baseMaxHealth`, `baseMaxPower` and `basePower` are the
engine-determined stats of the fresh creature. -/
def SummonCapturedGuardian (entry level archetype : Nat) (spells : List Nat)
    (baseMaxHealth baseMaxPower basePower powerType healthPct : Nat) : LiveGuardian :=
  let maxH := effectiveMaxHealth baseMaxHealth healthPct
  { entry := entry
    level := level
    maxHealth := maxH
    health := maxH
    maxPower := baseMaxPower
    power := basePower
    powerType := powerType
    alive := true
    archetype := archetype
    spellSlots := spells }

/-- The resource-restore block shared by the summon, login and map-change
paths: the health snapshot is applied only when it is positive and at most
the new maximum; a positive power snapshot is applied through the engine
(`SetPower` clamps to the pool maximum). -/
def restoreSnapshot (g : LiveGuardian) (snapHealth snapPower : Nat) : LiveGuardian :=
  let g1 := if 0 < snapHealth ∧ snapHealth ≤ g.maxHealth then { g with health := snapHealth } else g
  if 0 < snapPower then { g1 with power := min snapPower g1.maxPower } else g1

inductive SummonOutcome where
  | summoned (g : LiveGuardian) (s : GuardianSlotData)
  | emptySlotError
  | alreadyActive
  | summonFailed
deriving DecidableEq, Repr

def summonedInstance : SummonOutcome → Option LiveGuardian
  | .summoned g _ => some g
  | _ => none

def summonedSlotState : SummonOutcome → Option GuardianSlotData
  | .summoned _ s => some s
  | _ => none

/-- Tesseract gossip `TESSERACT_ACTION_SUMMON`: requires the slot occupied
and not already active; respawns from stored state, restores the resource
snapshot, sets the live handle, clears `dismissed` and saves.  `summonOk`
models whether the engine spawn succeeded. -/
def gossipSummonSlot (s : GuardianSlotData) (newGuid : Nat)
    (baseMaxHealth baseMaxPower basePower healthPct : Nat) (summonOk : Bool) :
    SummonOutcome :=
  if !s.IsOccupied then .emptySlotError
  else if s.IsActive then .alreadyActive
  else if summonOk then
    let g0 := SummonCapturedGuardian s.guardianEntry s.guardianLevel s.archetype
      s.spellSlots baseMaxHealth baseMaxPower basePower s.guardianPowerType healthPct
    let g := restoreSnapshot g0 s.guardianHealth s.guardianPower
    .summoned g (saveSlot { s with guardianGuid := newGuid, dismissed := false })
  else .summonFailed

/-! ## Zone-change and login paths -/

inductive TeleportEffect where
  | repositioned
  | despawned
  | staleCleared
  | untouched
deriving DecidableEq, Repr

/-- `OnPlayerBeforeTeleport`, per slot: inactive slots are skipped; a
stale handle is cleared; on a same-map move the live guardian is
teleported near the destination and the slot is untouched; on a cross-map
move the slot is snapshotted and the handle cleared. -/
def beforeTeleportSlot (s : GuardianSlotData) (resolved : Option LiveGuardian)
    (sameMap : Bool) : GuardianSlotData × TeleportEffect :=
  if s.IsActive then
    match resolved with
    | none => ({ s with guardianGuid := 0 }, .staleCleared)
    | some g =>
      if sameMap then (s, .repositioned)
      else ({ SnapshotGuardianSlot s (some g) with guardianGuid := 0 }, .despawned)
  else (s, .untouched)

/-- `OnPlayerMapChanged`, per slot: every occupied, inactive slot is
re-summoned with restored state (there is no `dismissed` check on this
path); `newGuid = none` models a failed spawn. -/
def mapChangedSlotStep (s : GuardianSlotData) (newGuid : Option Nat)
    (baseMaxHealth baseMaxPower basePower healthPct : Nat) :
    GuardianSlotData × Option LiveGuardian :=
  if !s.IsOccupied || s.IsActive then (s, none)
  else
    match newGuid with
    | none => (s, none)
    | some gid =>
      let g0 := SummonCapturedGuardian s.guardianEntry s.guardianLevel s.archetype
        s.spellSlots baseMaxHealth baseMaxPower basePower s.guardianPowerType healthPct
      let g := restoreSnapshot g0 s.guardianHealth s.guardianPower
      ({ s with guardianGuid := gid }, some g)

/-- `OnPlayerLogin`, per occupied slot: a slot that was not explicitly
dismissed is auto-summoned with restored state; a dismissed slot is only
reported as stored. -/
def loginSlotStep (s : GuardianSlotData) (newGuid : Option Nat)
    (baseMaxHealth baseMaxPower basePower healthPct : Nat) :
    GuardianSlotData × Option LiveGuardian :=
  if !s.IsOccupied then (s, none)
  else if !s.dismissed then
    match newGuid with
    | none => (s, none)
    | some gid =>
      let g0 := SummonCapturedGuardian s.guardianEntry s.guardianLevel s.archetype
        s.spellSlots baseMaxHealth baseMaxPower basePower s.guardianPowerType healthPct
      let g := restoreSnapshot g0 s.guardianHealth s.guardianPower
      ({ s with guardianGuid := gid }, some g)
  else (s, none)

/-! ## Claim C5 — Dismiss on an inactive slot -/

/-- C5: Dismiss applied to a slot with no live handle — through the
Tesseract gossip path or the `.capture dismiss` command path — fails with
the `NotActive` outcome and returns the slot with every field unchanged. -/
theorem dismissInactiveSlotNoChange (s : GuardianSlotData)
    (resolved : Option LiveGuardian) (h : s.IsActive = false) :
    gossipDismissSlot s resolved = (.notActive, s) ∧
    commandDismissOnSlot s resolved = (.notActive, s) := by
  constructor <;> simp [gossipDismissSlot, commandDismissOnSlot, h]

/-- A stored (occupied, inactive, dismissed) slot used as the concrete
input of the `dismissInactiveSlotNoChange` witness. -/
def storedInactiveSlot : GuardianSlotData :=
  { emptySlot with
    guardianEntry := 299
    guardianLevel := 12
    guardianHealth := 77
    dismissed := true }

/-- Witness for `dismissInactiveSlotNoChange` at a concrete stored slot. -/
theorem dismissInactiveSlotNoChange_witness :
    storedInactiveSlot.IsActive = false ∧
      (gossipDismissSlot storedInactiveSlot none = (.notActive, storedInactiveSlot) ∧
       commandDismissOnSlot storedInactiveSlot none = (.notActive, storedInactiveSlot)) :=
  ⟨by decide, dismissInactiveSlotNoChange storedInactiveSlot none (by decide)⟩

/-! ## Claim C1 — Dismiss followed by Summon -/

/-- An active slot whose live guardian has died (health 0): the command
dismiss path snapshots a dead-but-resolvable guardian without an alive
check, so a health snapshot of 0 is reachable. -/
def slotWithDeadGuardian : GuardianSlotData :=
  { emptySlot with guardianGuid := 5, guardianEntry := 42, guardianLevel := 10 }

def deadLiveGuardian : LiveGuardian :=
  { entry := 42
    level := 10
    maxHealth := 80
    health := 0
    maxPower := 0
    power := 0
    powerType := 0
    alive := false
    archetype := ARCHETYPE_DPS
    spellSlots := List.replicate MAX_GUARDIAN_SPELLS 0 }

/-- C1 as stated predicts that a health snapshot of 0 restores to 0.  In
the code the restore block skips any snapshot that is not strictly
positive, leaving the respawned guardian at full health: dismissing a dead
guardian (snapshot health 0) and summoning it again (respawn maximum 100)
yields health 100, not 0. -/
theorem zeroHealthSnapshotRestoresFull :
    (summonedInstance (gossipSummonSlot
        (commandDismissOnSlot slotWithDeadGuardian (some deadLiveGuardian)).2
        7 100 0 0 100 true)).map LiveGuardian.health = some 100 ∧
    (summonedInstance (gossipSummonSlot
        (commandDismissOnSlot slotWithDeadGuardian (some deadLiveGuardian)).2
        7 100 0 0 100 true)).map LiveGuardian.health ≠ some 0 := by
  constructor <;> decide

/-- C1 (amended): for every slot, Dismiss (which snapshots live state)
followed by Summon restores `archetype` and the ability-slot array
exactly, and restores the health snapshot only when it is positive and at
most the new instance's maximum: a snapshot above the respawned maximum
and a snapshot of 0 are both skipped, leaving the respawned guardian at
full (= maximum) health — snapshot 150 with respawn maximum 100 yields
100, and snapshot 0 yields full health, not 0. -/
theorem dismissThenSummonRestores (s : GuardianSlotData) (g : LiveGuardian)
    (newGuid baseMaxHealth baseMaxPower basePower healthPct : Nat)
    (hact : s.IsActive = true) (hentry : g.entry ≠ 0) :
    (summonedInstance (gossipSummonSlot (commandDismissOnSlot s (some g)).2
        newGuid baseMaxHealth baseMaxPower basePower healthPct true)).map
        LiveGuardian.archetype = some s.archetype ∧
    (summonedInstance (gossipSummonSlot (commandDismissOnSlot s (some g)).2
        newGuid baseMaxHealth baseMaxPower basePower healthPct true)).map
        LiveGuardian.spellSlots = some g.spellSlots ∧
    (summonedInstance (gossipSummonSlot (commandDismissOnSlot s (some g)).2
        newGuid baseMaxHealth baseMaxPower basePower healthPct true)).map
        LiveGuardian.health =
      some (if 0 < g.health ∧ g.health ≤ effectiveMaxHealth baseMaxHealth healthPct
            then g.health else effectiveMaxHealth baseMaxHealth healthPct) := by
  simp only [commandDismissOnSlot, SnapshotGuardianSlot, hact, if_true, if_pos]
  simp only [gossipSummonSlot, saveSlot, GuardianSlotData.IsOccupied,
    GuardianSlotData.IsActive, SummonCapturedGuardian, restoreSnapshot,
    summonedInstance, hentry, if_neg hentry]
  simp only [bne_iff_ne, ne_eq, hentry, not_false_iff, if_true,
    Bool.not_true, Bool.false_eq_true, if_false]
  split_ifs <;> simp_all

/-- Concrete active slot and live guardian for the
`dismissThenSummonRestores` witness: live health 150 against a respawn
maximum of 100. -/
def activeSlotW : GuardianSlotData :=
  { emptySlot with
    guardianGuid := 9
    guardianEntry := 42
    guardianLevel := 30
    archetype := ARCHETYPE_HEALER }

def liveGuardianW : LiveGuardian :=
  { entry := 42
    level := 30
    maxHealth := 150
    health := 150
    maxPower := 200
    power := 120
    powerType := 0
    alive := true
    archetype := ARCHETYPE_HEALER
    spellSlots := [2061, 0, 25, 0, 0, 0, 0, 0] }

/-- Witness for `dismissThenSummonRestores`: health snapshot 150 against
respawn maximum 100 restores to 100, archetype and ability array exactly. -/
theorem dismissThenSummonRestores_witness :
    (activeSlotW.IsActive = true ∧ liveGuardianW.entry ≠ 0) ∧
      ((summonedInstance (gossipSummonSlot
          (commandDismissOnSlot activeSlotW (some liveGuardianW)).2
          7 100 0 0 100 true)).map LiveGuardian.archetype = some activeSlotW.archetype ∧
       (summonedInstance (gossipSummonSlot
          (commandDismissOnSlot activeSlotW (some liveGuardianW)).2
          7 100 0 0 100 true)).map LiveGuardian.spellSlots = some liveGuardianW.spellSlots ∧
       (summonedInstance (gossipSummonSlot
          (commandDismissOnSlot activeSlotW (some liveGuardianW)).2
          7 100 0 0 100 true)).map LiveGuardian.health =
         some (if 0 < liveGuardianW.health ∧
                 liveGuardianW.health ≤ effectiveMaxHealth 100 100
               then liveGuardianW.health else effectiveMaxHealth 100 100)) :=
  ⟨⟨by decide, by decide⟩,
    dismissThenSummonRestores activeSlotW liveGuardianW 7 100 0 0 100
      (by decide) (by decide)⟩

/-! ## Claim C6 — zone-transfer semantics -/

/-- C6: for an active slot whose live instance resolves, a same-map move
leaves the slot (in particular its live handle) untouched, the guardian
being merely repositioned; a cross-map move snapshots the live state,
clears the handle, and leaves identity, archetype, dismissed flag and
display hints unchanged, so the slot stays occupied but inactive. -/
theorem teleportTransferSemantics (s : GuardianSlotData) (g : LiveGuardian)
    (hact : s.IsActive = true) (hentry : g.entry = s.guardianEntry) :
    beforeTeleportSlot s (some g) true = (s, .repositioned) ∧
    ((beforeTeleportSlot s (some g) false).2 = .despawned ∧
     (beforeTeleportSlot s (some g) false).1.guardianGuid = 0 ∧
     (beforeTeleportSlot s (some g) false).1.IsActive = false ∧
     (beforeTeleportSlot s (some g) false).1.guardianEntry = s.guardianEntry ∧
     (beforeTeleportSlot s (some g) false).1.IsOccupied = s.IsOccupied ∧
     (beforeTeleportSlot s (some g) false).1.archetype = s.archetype ∧
     (beforeTeleportSlot s (some g) false).1.dismissed = s.dismissed ∧
     (beforeTeleportSlot s (some g) false).1.displayId = s.displayId ∧
     (beforeTeleportSlot s (some g) false).1.equipmentId = s.equipmentId ∧
     (beforeTeleportSlot s (some g) false).1.guardianHealth = g.health) := by
  have hg : ¬ s.guardianGuid = 0 := by
    simpa [GuardianSlotData.IsActive, bne_iff_ne] using hact
  simp [beforeTeleportSlot, SnapshotGuardianSlot, hact, hentry, hg,
    GuardianSlotData.IsActive, GuardianSlotData.IsOccupied]

/-- Concrete active slot and live guardian for the
`teleportTransferSemantics` witness. -/
def activeTeleportSlotW : GuardianSlotData :=
  { emptySlot with
    guardianGuid := 11
    guardianEntry := 1337
    guardianLevel := 25
    archetype := ARCHETYPE_TANK
    displayId := 9000
    equipmentId := 3 }

def liveTeleportGuardianW : LiveGuardian :=
  { entry := 1337
    level := 25
    maxHealth := 400
    health := 361
    maxPower := 0
    power := 0
    powerType := 1
    alive := true
    archetype := ARCHETYPE_TANK
    spellSlots := [100, 200, 0, 0, 0, 0, 0, 0] }

/-- Witness for `teleportTransferSemantics` at a concrete active slot. -/
theorem teleportTransferSemantics_witness :
    (activeTeleportSlotW.IsActive = true ∧
       liveTeleportGuardianW.entry = activeTeleportSlotW.guardianEntry) ∧
      (beforeTeleportSlot activeTeleportSlotW (some liveTeleportGuardianW) true =
        (activeTeleportSlotW, .repositioned) ∧
       ((beforeTeleportSlot activeTeleportSlotW (some liveTeleportGuardianW) false).2 = .despawned ∧
        (beforeTeleportSlot activeTeleportSlotW (some liveTeleportGuardianW) false).1.guardianGuid = 0 ∧
        (beforeTeleportSlot activeTeleportSlotW (some liveTeleportGuardianW) false).1.IsActive = false ∧
        (beforeTeleportSlot activeTeleportSlotW (some liveTeleportGuardianW) false).1.guardianEntry =
          activeTeleportSlotW.guardianEntry ∧
        (beforeTeleportSlot activeTeleportSlotW (some liveTeleportGuardianW) false).1.IsOccupied =
          activeTeleportSlotW.IsOccupied ∧
        (beforeTeleportSlot activeTeleportSlotW (some liveTeleportGuardianW) false).1.archetype =
          activeTeleportSlotW.archetype ∧
        (beforeTeleportSlot activeTeleportSlotW (some liveTeleportGuardianW) false).1.dismissed =
          activeTeleportSlotW.dismissed ∧
        (beforeTeleportSlot activeTeleportSlotW (some liveTeleportGuardianW) false).1.displayId =
          activeTeleportSlotW.displayId ∧
        (beforeTeleportSlot activeTeleportSlotW (some liveTeleportGuardianW) false).1.equipmentId =
          activeTeleportSlotW.equipmentId ∧
        (beforeTeleportSlot activeTeleportSlotW (some liveTeleportGuardianW) false).1.guardianHealth =
          liveTeleportGuardianW.health)) :=
  ⟨⟨by decide, by decide⟩,
    teleportTransferSemantics activeTeleportSlotW liveTeleportGuardianW
      (by decide) (by decide)⟩

/-! ## Claim C2 — auto-respawn on login and after a map change -/

/-- An occupied, inactive slot whose guardian was explicitly dismissed. -/
def dismissedStoredSlot : GuardianSlotData :=
  { emptySlot with
    guardianEntry := 42
    guardianLevel := 10
    guardianHealth := 50
    dismissed := true }

/-- C2 evaluated at the failing input: `OnPlayerMapChanged` re-summons
every occupied, inactive slot without consulting the `dismissed` flag, so
an explicitly dismissed slot comes back active after a cross-map change,
while the login path (which does check `dismissed`) leaves the same slot
inactive.  This contradicts the claim (and the login path's own logic)
that a dismissed slot is never automatically respawned. -/
theorem mapChangeRespawnsDismissedSlot :
    dismissedStoredSlot.dismissed = true ∧
    dismissedStoredSlot.IsOccupied = true ∧
    dismissedStoredSlot.IsActive = false ∧
    (mapChangedSlotStep dismissedStoredSlot (some 7) 100 0 0 100).1.IsActive = true ∧
    (loginSlotStep dismissedStoredSlot (some 7) 100 0 0 100).1.IsActive = false := by
  decide

/-! ## Spell-array persistence (`SerializeSpells` / `DeserializeSpells`)

`std::string` is modelled as `List Char`.  `SerializeSpells` joins the 8
decimal-printed entries with commas; `DeserializeSpells` zero-fills,
splits on commas and parses up to 8 tokens with `strtoul`, truncating the
`unsigned long` result into a `uint32` (explicit `% 2^32`).

The comma split is modelled by `splitOnComma`; `std::getline` with a
delimiter produces one fewer (empty) trailing token when the input ends in
a comma, but that empty token parses to 0 and lands on (or beyond) a slot
the zero-fill already set to 0, so the resulting arrays coincide on every
input.
-/

/-- Decimal digits of `n`, most significant first (`operator<<` on a
`uint32`). -/
def natDigits (n : Nat) : List Char :=
  if _h : n < 10 then [Char.ofNat (48 + n)]
  else natDigits (n / 10) ++ [Char.ofNat (48 + n % 10)]
termination_by n
decreasing_by exact Nat.div_lt_self (by omega) (by decide)

def joinComma : List (List Char) → List Char
  | [] => []
  | [p] => p
  | p :: q :: rest => p ++ ',' :: joinComma (q :: rest)

def SerializeSpells (spells : List Nat) : List Char :=
  joinComma (spells.map natDigits)

def splitOnCommaAux : List Char → List Char → List (List Char)
  | [], acc => [acc.reverse]
  | c :: rest, acc =>
    if c = ',' then acc.reverse :: splitOnCommaAux rest []
    else splitOnCommaAux rest (c :: acc)

def splitOnComma (l : List Char) : List (List Char) :=
  splitOnCommaAux l []

/-- `std::strtoul(token, nullptr, 10)` restricted to what the tokens here
can contain: consume leading decimal digits, ignore the rest. -/
def strtoulAux : List Char → Nat → Nat
  | [], acc => acc
  | c :: rest, acc =>
    if 48 ≤ c.toNat ∧ c.toNat ≤ 57 then strtoulAux rest (acc * 10 + (c.toNat - 48))
    else acc

def strtoulModel (l : List Char) : Nat := strtoulAux l 0

def UINT32_MOD : Nat := 4294967296

def DeserializeSpells (s : List Char) : List Nat :=
  if s = [] then List.replicate MAX_GUARDIAN_SPELLS 0
  else
    let vals := ((splitOnComma s).take MAX_GUARDIAN_SPELLS).map
      (fun t => strtoulModel t % UINT32_MOD)
    vals ++ List.replicate (MAX_GUARDIAN_SPELLS - vals.length) 0

/-! Auxiliary lemmas for the round trip. -/

theorem natDigits_ne_nil (n : Nat) : natDigits n ≠ [] := by
  rw [natDigits]
  split
  · simp
  · simp

theorem natDigits_isDigit (n : Nat) :
    ∀ c ∈ natDigits n, 48 ≤ c.toNat ∧ c.toNat ≤ 57 := by
  induction n using Nat.strong_induction_on with
  | _ n ih =>
    rw [natDigits]
    split
    · intro c hc
      simp only [List.mem_singleton] at hc
      subst hc
      have hn : n ≤ 9 := by omega
      interval_cases n <;> decide
    · intro c hc
      rw [List.mem_append] at hc
      rcases hc with hc | hc
      · exact ih (n / 10) (Nat.div_lt_self (by omega) (by decide)) c hc
      · simp only [List.mem_singleton] at hc
        subst hc
        have hm : n % 10 ≤ 9 := by omega
        interval_cases h : n % 10 <;> simp_all

theorem natDigits_no_comma (n : Nat) : ',' ∉ natDigits n := by
  intro hmem
  have h := natDigits_isDigit n _ hmem
  revert h
  decide

theorem strtoulAux_digits (l : List Char) :
    (∀ c ∈ l, 48 ≤ c.toNat ∧ c.toNat ≤ 57) → ∀ acc,
      strtoulAux l acc = l.foldl (fun a c => a * 10 + (c.toNat - 48)) acc := by
  induction l with
  | nil => intro _ acc; rfl
  | cons c rest ih =>
    intro hdig acc
    have hc := hdig c (by simp)
    simp only [strtoulAux, List.foldl_cons, if_pos hc]
    exact ih (fun d hd => hdig d (by simp [hd])) _

theorem foldl_natDigits (n : Nat) :
    ∀ acc, (natDigits n).foldl (fun a c => a * 10 + (c.toNat - 48)) acc =
      acc * 10 ^ (natDigits n).length + n := by
  induction n using Nat.strong_induction_on with
  | _ n ih =>
    intro acc
    rw [natDigits]
    split
    · rename_i h
      have hval : (Char.ofNat (48 + n)).toNat = 48 + n := by
        have hn : n ≤ 9 := by omega
        interval_cases n <;> decide
      simp only [List.foldl_cons, List.foldl_nil, List.length_singleton, hval, pow_one]
      omega
    · rename_i h
      have hval : (Char.ofNat (48 + n % 10)).toNat = 48 + n % 10 := by
        have hm : n % 10 ≤ 9 := by omega
        interval_cases hmc : n % 10 <;> simp_all
      rw [List.foldl_append]
      rw [ih (n / 10) (Nat.div_lt_self (by omega) (by decide)) acc]
      simp only [List.foldl_cons, List.foldl_nil, List.length_append,
        List.length_singleton, hval]
      have hpow : 10 ^ ((natDigits (n / 10)).length + 1) =
          10 ^ (natDigits (n / 10)).length * 10 := by
        rw [pow_succ]
      rw [hpow]
      have hmod : n % 10 + 48 - 48 = n % 10 := by omega
      have : n / 10 * 10 + n % 10 = n := by omega
      ring_nf
      omega

theorem strtoul_natDigits (n : Nat) : strtoulModel (natDigits n) = n := by
  unfold strtoulModel
  rw [strtoulAux_digits _ (natDigits_isDigit n) 0, foldl_natDigits n 0]
  simp

theorem splitOnCommaAux_no_comma (l : List Char) :
    ',' ∉ l → ∀ acc, splitOnCommaAux l acc = [acc.reverse ++ l] := by
  induction l with
  | nil => intro _ acc; simp [splitOnCommaAux]
  | cons c rest ih =>
    intro hmem acc
    have hc : ¬ c = ',' := fun h => hmem (by simp [h])
    simp only [splitOnCommaAux, if_neg hc]
    rw [ih (fun h => hmem (by simp [h])) (c :: acc)]
    simp

theorem splitOnCommaAux_append (p t : List Char) :
    ',' ∉ p → ∀ acc,
      splitOnCommaAux (p ++ ',' :: t) acc = (acc.reverse ++ p) :: splitOnCommaAux t [] := by
  induction p with
  | nil =>
    intro _ acc
    simp [splitOnCommaAux]
  | cons c rest ih =>
    intro hmem acc
    have hc : ¬ c = ',' := fun h => hmem (by simp [h])
    simp only [List.cons_append, splitOnCommaAux, if_neg hc, List.append_eq]
    rw [ih (fun h => hmem (by simp [h])) (c :: acc)]
    simp

theorem splitOnComma_joinComma (parts : List (List Char)) :
    parts ≠ [] → (∀ p ∈ parts, ',' ∉ p) →
      splitOnComma (joinComma parts) = parts := by
  induction parts with
  | nil => intro h; exact absurd rfl h
  | cons p rest ih =>
    intro _ hfree
    cases rest with
    | nil =>
      unfold splitOnComma joinComma
      rw [splitOnCommaAux_no_comma p (hfree p (by simp)) []]
      simp
    | cons q rest2 =>
      unfold splitOnComma joinComma
      rw [splitOnCommaAux_append p (joinComma (q :: rest2)) (hfree p (by simp)) []]
      simp only [List.reverse_nil, List.nil_append]
      have := ih (by simp) (fun r hr => hfree r (by simp [hr]))
      unfold splitOnComma at this
      rw [this]

theorem joinComma_ne_nil (p : List Char) (rest : List (List Char)) :
    p ≠ [] → joinComma (p :: rest) ≠ [] := by
  intro hp
  cases rest with
  | nil => simpa [joinComma] using hp
  | cons q rest2 =>
    simp only [joinComma]
    intro h
    exact hp (List.append_eq_nil.mp h).1

/-! ## Claim C10 — persistence round trip -/

/-- C10: for every 8-entry ability array of `uint32` values, deserializing
the comma-separated string produced by serialization yields the original
array, so persistence of slot order round-trips exactly. -/
theorem serializeDeserializeRoundTrip (spells : List Nat)
    (hlen : spells.length = MAX_GUARDIAN_SPELLS)
    (hbound : ∀ x ∈ spells, x < UINT32_MOD) :
    DeserializeSpells (SerializeSpells spells) = spells := by
  have hne : spells ≠ [] := by
    intro h
    rw [h] at hlen
    simp [MAX_GUARDIAN_SPELLS] at hlen
  obtain ⟨p0, rest, hcons⟩ := List.exists_cons_of_ne_nil hne
  have hser_ne : SerializeSpells spells ≠ [] := by
    rw [hcons]
    unfold SerializeSpells
    simp only [List.map_cons]
    exact joinComma_ne_nil _ _ (natDigits_ne_nil p0)
  have hsplit : splitOnComma (SerializeSpells spells) = spells.map natDigits := by
    unfold SerializeSpells
    apply splitOnComma_joinComma
    · simp [hcons]
    · intro p hp
      rw [List.mem_map] at hp
      obtain ⟨x, _, hx⟩ := hp
      rw [← hx]
      exact natDigits_no_comma x
  unfold DeserializeSpells
  rw [if_neg hser_ne, hsplit]
  have hlen2 : (spells.map natDigits).length = MAX_GUARDIAN_SPELLS := by
    simpa using hlen
  rw [List.take_of_length_le (by rw [hlen2])]
  have hmap : (spells.map natDigits).map (fun t => strtoulModel t % UINT32_MOD) = spells := by
    rw [List.map_map]
    have : spells.map (fun x => strtoulModel (natDigits x) % UINT32_MOD) = spells.map id := by
      apply List.map_congr_left
      intro x hx
      rw [strtoul_natDigits x]
      exact Nat.mod_eq_of_lt (hbound x hx)
    simpa using this
  rw [hmap]
  dsimp only
  rw [hlen]
  simp

/-- Witness for `serializeDeserializeRoundTrip` on a concrete 8-entry
array. -/
theorem serializeDeserializeRoundTrip_witness :
    (([133, 0, 25, 2504, 44807, 1, 999999, 4294967295] : List Nat).length = MAX_GUARDIAN_SPELLS ∧
       ∀ x ∈ ([133, 0, 25, 2504, 44807, 1, 999999, 4294967295] : List Nat), x < UINT32_MOD) ∧
      DeserializeSpells (SerializeSpells [133, 0, 25, 2504, 44807, 1, 999999, 4294967295]) =
        [133, 0, 25, 2504, 44807, 1, 999999, 4294967295] :=
  ⟨⟨by decide, by decide⟩,
    serializeDeserializeRoundTrip _ (by decide) (by decide)⟩

/-! ## Healer heal-target selection (`CapturedGuardianAI::DoCastHealingSpells`)

Health percentages (`GetHealthPct`, a float in the source) are modelled as
naturals; every comparison in the source is against the whole-number
threshold 50 (heal) or 80 (idle owner check).  The owner's guardian slots
are presented in slot order as `AllyHealInfo` entries (`isSelf` marks the
slot holding this guardian's own GUID).
-/

structure AllyHealInfo where
  active : Bool
  isSelf : Bool
  resolvedAlive : Bool
  healthPct : Nat
deriving DecidableEq, Repr

inductive HealTargetKind where
  | owner
  | selfTarget
  | ally (slotIdx : Nat)
deriving DecidableEq, Repr

structure HealScanEnv where
  ownerPresent : Bool
  ownerAlive : Bool
  ownerHealthPct : Nat
  selfHealthPct : Nat
  allies : List AllyHealInfo
deriving DecidableEq, Repr

/-- The ally scan of `DoCastHealingSpells`: first active slot, other than
this guardian's own, whose resolved, alive instance is below 50 %. -/
def findWoundedAllyFrom : List AllyHealInfo → Nat → Option Nat
  | [], _ => none
  | a :: rest, i =>
    if a.active && !a.isSelf && a.resolvedAlive && decide (a.healthPct < 50) then some i
    else findWoundedAllyFrom rest (i + 1)

/-- The prioritized heal-target choice of `DoCastHealingSpells`: owner
below 50 %, else self below 50 %, else the first wounded fellow guardian
in slot order. -/
def selectHealTarget (e : HealScanEnv) : Option HealTargetKind :=
  if e.ownerPresent && e.ownerAlive && decide (e.ownerHealthPct < 50) then some .owner
  else if decide (e.selfHealthPct < 50) then some .selfTarget
  else if e.ownerPresent then (findWoundedAllyFrom e.allies 0).map .ally
  else none

/-- Catalog and cooldown facts consulted by the ability scans. -/
structure SpellFacts where
  known : Nat → Bool
  healEffect : Nat → Bool
  positive : Nat → Bool
  onCooldown : Nat → Bool

/-- The spell loop of `DoCastHealingSpells`: first non-empty slot holding
a known, positive spell with a heal effect that is off cooldown. -/
def selectHealSpell (f : SpellFacts) (spells : List Nat) : Option Nat :=
  spells.find? fun id =>
    id != 0 && f.known id && (f.positive id && f.healEffect id) && !f.onCooldown id

/-- `DoCastHealingSpells`: no cast while already casting; otherwise pick
the prioritized target, and if one exists cast the first eligible healing
spell at it. -/
def DoCastHealingSpells (e : HealScanEnv) (f : SpellFacts) (spells : List Nat)
    (casting : Bool) : Option (Nat × HealTargetKind) :=
  if casting then none
  else
    match selectHealTarget e with
    | none => none
    | some t => (selectHealSpell f spells).map (fun id => (id, t))

/-! ## Claim C3 — healer heal priority -/

/-- C3 as stated predicts that the heal targets the most wounded of
{owner, self, allies} below the threshold.  The code uses a fixed
priority: with the owner at 40 % and this guardian itself at 10 % the cast
targets the owner even though self is more wounded. -/
theorem healTargetsOwnerNotMostWounded :
    selectHealTarget
      { ownerPresent := true
        ownerAlive := true
        ownerHealthPct := 40
        selfHealthPct := 10
        allies := [] } = some .owner ∧ (10 : Nat) < 40 := by
  constructor <;> decide

/-- C3 (amended): whenever the heal step runs it targets by fixed
priority, not by wound depth — the owner if below 50 %, else itself if
below 50 %, else the first active, alive fellow guardian in slot order
below 50 %; in particular with owner at 40 %, self at 90 % and an ally at
30 %, the cast (when a healing spell is ready) targets the owner, never
the ally or self. -/
theorem healPriorityFixedOrder (e : HealScanEnv) (f : SpellFacts)
    (spells : List Nat) :
    (e.ownerPresent = true → e.ownerAlive = true → e.ownerHealthPct < 50 →
      selectHealTarget e = some .owner) ∧
    (¬(e.ownerPresent = true ∧ e.ownerAlive = true ∧ e.ownerHealthPct < 50) →
      e.selfHealthPct < 50 → selectHealTarget e = some .selfTarget) ∧
    (¬(e.ownerPresent = true ∧ e.ownerAlive = true ∧ e.ownerHealthPct < 50) →
      ¬ e.selfHealthPct < 50 → e.ownerPresent = true →
      selectHealTarget e = (findWoundedAllyFrom e.allies 0).map .ally) ∧
    ((DoCastHealingSpells
        { ownerPresent := true
          ownerAlive := true
          ownerHealthPct := 40
          selfHealthPct := 90
          allies := [{ active := true, isSelf := false, resolvedAlive := true, healthPct := 30 }] }
        f spells false).map Prod.snd = some .owner ∨
      DoCastHealingSpells
        { ownerPresent := true
          ownerAlive := true
          ownerHealthPct := 40
          selfHealthPct := 90
          allies := [{ active := true, isSelf := false, resolvedAlive := true, healthPct := 30 }] }
        f spells false = none) := by
  refine ⟨?_, ?_, ?_, ?_⟩
  · intro h1 h2 h3
    simp [selectHealTarget, h1, h2, h3]
  · intro h1 h2
    unfold selectHealTarget
    rw [if_neg (by simpa [and_assoc] using h1), if_pos (by simpa using h2)]
  · intro h1 h2 h3
    unfold selectHealTarget
    rw [if_neg (by simpa [and_assoc] using h1), if_neg (by simpa using h2), if_pos (by simp [h3])]
  · unfold DoCastHealingSpells
    rw [if_neg (by simp)]
    have hsel : selectHealTarget
        { ownerPresent := true
          ownerAlive := true
          ownerHealthPct := 40
          selfHealthPct := 90
          allies := [{ active := true, isSelf := false, resolvedAlive := true, healthPct := 30 }] } =
        some .owner := by decide
    rw [hsel]
    cases hspell : selectHealSpell f spells with
    | none => right; simp
    | some sid => left; simp

/-- Concrete inputs for the `healPriorityFixedOrder` witness. -/
def healEnvW : HealScanEnv :=
  { ownerPresent := true
    ownerAlive := true
    ownerHealthPct := 40
    selfHealthPct := 90
    allies := [{ active := true, isSelf := false, resolvedAlive := true, healthPct := 30 }] }

def spellFactsW : SpellFacts :=
  { known := fun _ => true
    healEffect := fun _ => true
    positive := fun _ => true
    onCooldown := fun _ => false }

/-- Witness for `healPriorityFixedOrder`: the owner-below-threshold rule
applied at the spec's concrete scenario. -/
theorem healPriorityFixedOrder_witness :
    (healEnvW.ownerPresent = true ∧ healEnvW.ownerAlive = true ∧
       healEnvW.ownerHealthPct < 50) ∧
      selectHealTarget healEnvW = some .owner :=
  ⟨⟨rfl, rfl, by decide⟩,
    (healPriorityFixedOrder healEnvW spellFactsW [2061]).1 rfl rfl (by decide)⟩

/-! ## Idle threat scan (`CapturedGuardianAI::UpdateAI`, combat-check timer)

The scan runs out of combat when the combat-check timer fires and the
owner reference is resolved.  Engine facts (`CanCreatureAttack`,
`IsAlive`) are supplied as predicates on unit identifiers;
`getAttackerForHelper` and `GetVictim` results are passed as options; the
owner's slot set is presented in slot order for the fellow-guardian rule.
-/

structure AllyThreatInfo where
  active : Bool
  isSelf : Bool
  resolvedAlive : Bool
  attackers : List Nat
deriving DecidableEq, Repr

structure ThreatScanEnv where
  archetype : Nat
  ownerAttacker : Option Nat
  ownerVictim : Option Nat
  allies : List AllyThreatInfo
  selfAttackers : List Nat
  canAttack : Nat → Bool
  unitAlive : Nat → Bool
  ownerAlive : Bool
  ownerHealthPct : Nat

inductive ThreatScanAction where
  | engage (target : Nat) (threatBonus : Nat)
  | healAttempt
  | idle
deriving DecidableEq, Repr

/-- `CapturedGuardianAI::FindAllyAttacker`: first alive, attackable
attacker of any other active, resolved, alive guardian of the owner, in
slot order. -/
def FindAllyAttacker (e : ThreatScanEnv) : Option Nat :=
  e.allies.findSome? fun a =>
    if a.active && !a.isSelf && a.resolvedAlive then
      a.attackers.find? fun u => e.unitAlive u && e.canAttack u
    else none

/-- Rules d–f of the scan (reached when no owner-attacker and no
attackable owner target matched). -/
def threatScanDefense (e : ThreatScanEnv) : ThreatScanAction :=
  match FindAllyAttacker e with
  | some t => .engage t 0
  | none =>
    match e.selfAttackers.find? (fun u => e.unitAlive u && e.canAttack u) with
    | some t => .engage t 100
    | none =>
      if e.archetype == ARCHETYPE_HEALER && e.ownerAlive && decide (e.ownerHealthPct < 80)
      then .healAttempt
      else .idle

/-- Rule c (owner's current combat target) and below. -/
def threatScanFromOwnerTarget (e : ThreatScanEnv) : ThreatScanAction :=
  match e.ownerVictim with
  | some t => if e.canAttack t then .engage t 0 else threatScanDefense e
  | none => threatScanDefense e

/-- The idle threat scan, source order: the tank-only owner-attacker rule
with a 200 threat bias, the generic owner-attacker rule, the owner's
current target, an attacker of a fellow guardian, an attacker of this
guardian itself (100 threat bias), and finally the healer's
out-of-combat heal attempt. -/
def threatScan (e : ThreatScanEnv) : ThreatScanAction :=
  match e.ownerAttacker with
  | some a =>
    if e.canAttack a then
      if e.archetype == ARCHETYPE_TANK then .engage a 200 else .engage a 0
    else threatScanFromOwnerTarget e
  | none => threatScanFromOwnerTarget e

/-! A second reading of the scan, modelled from the spec: an explicit
ordered rule list evaluated first-match-wins.  Comparing it with
`threatScan` (translated from the source) settles the priority-order
claim. -/

/-- Modelled from the spec: rule (a), tank archetype only — an entity
currently attacking the owner, engaged with an initial threat bias. -/
def specRuleTankOwnerAttacker (e : ThreatScanEnv) : Option ThreatScanAction :=
  if e.archetype == ARCHETYPE_TANK then
    match e.ownerAttacker with
    | some a => if e.canAttack a then some (.engage a 200) else none
    | none => none
  else none

/-- Modelled from the spec: rule (b) — any entity currently attacking the
owner. -/
def specRuleOwnerAttacker (e : ThreatScanEnv) : Option ThreatScanAction :=
  match e.ownerAttacker with
  | some a => if e.canAttack a then some (.engage a 0) else none
  | none => none

/-- Modelled from the spec: rule (c) — the owner's own current combat
target, if legally attackable. -/
def specRuleOwnerTarget (e : ThreatScanEnv) : Option ThreatScanAction :=
  match e.ownerVictim with
  | some t => if e.canAttack t then some (.engage t 0) else none
  | none => none

/-- Modelled from the spec: rule (d) — an entity attacking a fellow
guardian of the same owner. -/
def specRuleAllyDefense (e : ThreatScanEnv) : Option ThreatScanAction :=
  (FindAllyAttacker e).map (fun t => .engage t 0)

/-- Modelled from the spec: rule (e) — an entity attacking this guardian
itself. -/
def specRuleSelfDefense (e : ThreatScanEnv) : Option ThreatScanAction :=
  (e.selfAttackers.find? (fun u => e.unitAlive u && e.canAttack u)).map
    (fun t => .engage t 100)

/-- Modelled from the spec: rule (f), healer archetype only — heal the
owner when below the 80 % threshold, without engaging. -/
def specRuleHealerAssist (e : ThreatScanEnv) : Option ThreatScanAction :=
  if e.archetype == ARCHETYPE_HEALER && e.ownerAlive && decide (e.ownerHealthPct < 80)
  then some .healAttempt
  else none

/-- Modelled from the spec: the scan as a strict-priority rule list with
first match winning. -/
def threatScanSpecOrder (e : ThreatScanEnv) : ThreatScanAction :=
  (([specRuleTankOwnerAttacker e, specRuleOwnerAttacker e, specRuleOwnerTarget e,
     specRuleAllyDefense e, specRuleSelfDefense e,
     specRuleHealerAssist e].findSome? id).getD .idle)

/-! ## Claim C7 — threat-scan priority order -/

/-- The tank scenario of C7: hostile 1 attacks the owner, hostile 2
attacks the tank guardian itself. -/
def tankScanScenario : ThreatScanEnv :=
  { archetype := ARCHETYPE_TANK
    ownerAttacker := some 1
    ownerVictim := none
    allies := []
    selfAttackers := [2]
    canAttack := fun _ => true
    unitAlive := fun _ => true
    ownerAlive := true
    ownerHealthPct := 100 }

/-- C7: the idle threat scan equals the spec's strict-priority
first-match-wins rule list, and in the tank scenario — one hostile
attacking the owner, one attacking the tank itself — the added-threat
step applies its 200 bias to the owner's attacker, never to the
guardian's own attacker. -/
theorem threatScanPriorityOrder :
    (∀ e : ThreatScanEnv, threatScan e = threatScanSpecOrder e) ∧
    threatScan tankScanScenario = .engage 1 200 ∧
    (∀ bonus, threatScan tankScanScenario ≠ .engage 2 bonus) := by
  refine ⟨?_, by decide, ?_⟩
  · intro e
    unfold threatScan threatScanSpecOrder specRuleTankOwnerAttacker
      specRuleOwnerAttacker specRuleOwnerTarget specRuleAllyDefense
      specRuleSelfDefense specRuleHealerAssist threatScanFromOwnerTarget
      threatScanDefense
    rcases hoa : e.ownerAttacker with _ | a <;>
      rcases hov : e.ownerVictim with _ | t <;>
      rcases hal : FindAllyAttacker e with _ | u <;>
      rcases hsa : e.selfAttackers.find? (fun w => e.unitAlive w && e.canAttack w) with _ | v <;>
      simp only [Option.map_some, Option.map_none] <;>
      split_ifs <;>
      simp_all [List.findSome?]
  · intro bonus h
    have : threatScan tankScanScenario = .engage 1 200 := by decide
    rw [this] at h
    exact absurd (ThreatScanAction.engage.inj h).1 (by decide)

/-! ## Slot registry and its operations (Claim C4)

The per-owner registry: the fixed array of `MAX_GUARDIAN_SLOTS` slots
(`CapturedGuardianData::slots`) together with the per-owner rows of the
`character_guardian` table, modelled as one `Option` record per slot
index.  The operations named by the claim — capture, GM spawn, load from
storage, dismiss, release — are translated from their handlers.
-/

def slotAt (slots : List GuardianSlotData) (i : Nat) : GuardianSlotData :=
  slots.getD i emptySlot

def dbAt (db : List (Option GuardianSlotData)) (i : Nat) : Option GuardianSlotData :=
  db.getD i none

/-- `CapturedGuardianData::FindEmptySlot`: scan indices
`i = start, start+1, …` (`k` indices remain) for the first unoccupied
slot. -/
def FindEmptySlotFrom (slots : List GuardianSlotData) : Nat → Nat → Option Nat
  | _, 0 => none
  | i, k + 1 =>
    if (slotAt slots i).IsOccupied then FindEmptySlotFrom slots (i + 1) k
    else some i

/-- `FindEmptySlot` scans `i < config.maxSlots` in order. -/
def FindEmptySlot (maxSlots : Nat) (slots : List GuardianSlotData) : Option Nat :=
  FindEmptySlotFrom slots 0 maxSlots

/-- `CapturedGuardianData::FindSlotByGuid`: `-1` for the empty GUID, else
the first of the `MAX_GUARDIAN_SLOTS` slots holding that GUID. -/
def FindSlotByGuid (slots : List GuardianSlotData) (guid : Nat) : Option Nat :=
  if guid = 0 then none
  else (List.range MAX_GUARDIAN_SLOTS).find? fun i => (slotAt slots i).guardianGuid == guid

structure OwnerState where
  slots : List GuardianSlotData
  db : List (Option GuardianSlotData)
deriving DecidableEq, Repr

/-- Owner creation: all slots empty, no durable rows. -/
def initState : OwnerState :=
  { slots := List.replicate MAX_GUARDIAN_SLOTS emptySlot
    db := List.replicate MAX_GUARDIAN_SLOTS none }

/-- The data a capture or GM spawn reads off the source creature and the
fresh summon (entry, level, new GUID, resources, display hints, default
spells). -/
structure CapturePayload where
  entry : Nat
  level : Nat
  guid : Nat
  health : Nat
  power : Nat
  powerType : Nat
  displayId : Nat
  equipmentId : Int
  spells : List Nat
deriving DecidableEq, Repr

/-- The slot write performed by `HandleCaptureCommand` / `HandleSpawnCommand`
/ the Tesseract auto-capture: default archetype DPS, fields from the
captured creature. -/
def captureWrite (s : GuardianSlotData) (p : CapturePayload) : GuardianSlotData :=
  { s with
    guardianGuid := p.guid
    guardianEntry := p.entry
    guardianLevel := p.level
    guardianHealth := p.health
    guardianPowerType := p.powerType
    guardianPower := p.power
    archetype := ARCHETYPE_DPS
    displayId := p.displayId
    equipmentId := p.equipmentId
    spellSlots := p.spells }

/-- The durable row written by `SaveGuardianSlotToDb`: the table has no
GUID or dirty-flag column, and the spell array travels through
`SerializeSpells`/`DeserializeSpells`. -/
def dbRecordOf (s : GuardianSlotData) : GuardianSlotData :=
  { s with
    guardianGuid := 0
    savedToDb := true
    spellSlots := DeserializeSpells (SerializeSpells s.spellSlots) }

/-- `SaveGuardianSlotToDb`: a no-op for an unoccupied slot; otherwise
replace the row for this slot and mark the slot saved. -/
def saveGuardianToDb (st : OwnerState) (i : Nat) : OwnerState :=
  let s := slotAt st.slots i
  if s.guardianEntry = 0 then st
  else
    { slots := st.slots.set i { s with savedToDb := true }
      db := st.db.set i (some (dbRecordOf s)) }

/-- A loaded row overwrites every persisted field of the in-memory slot;
the live handle is untouched and the slot is marked saved. -/
def loadRow (s r : GuardianSlotData) : GuardianSlotData :=
  { r with guardianGuid := s.guardianGuid }

/-- `LoadGuardiansFromDb`: every row with `slot < MAX_GUARDIAN_SLOTS`
overwrites that slot. -/
def loadGuardians (st : OwnerState) : OwnerState :=
  { st with
    slots := (List.range MAX_GUARDIAN_SLOTS).map fun i =>
      match dbAt st.db i with
      | some r => loadRow (slotAt st.slots i) r
      | none => slotAt st.slots i }

/-- Capture (and GM spawn): fail without a free slot below the configured
maximum; on a successful summon (`ok`), write the slot and persist it. -/
def applyCapture (m : Nat) (st : OwnerState) (p : CapturePayload) (ok : Bool) :
    OwnerState :=
  match FindEmptySlot m st.slots with
  | none => st
  | some i =>
    if ok then
      saveGuardianToDb
        { st with slots := st.slots.set i (captureWrite (slotAt st.slots i) p) } i
    else st

/-- `HandleDismissCommand` at state level: resolve the targeted guardian
to a slot, require it active, snapshot, clear the handle, mark dismissed,
persist. -/
def applyDismiss (st : OwnerState) (targetGuid : Nat) (live : Option LiveGuardian) :
    OwnerState :=
  match FindSlotByGuid st.slots targetGuid with
  | none => st
  | some i =>
    let s := slotAt st.slots i
    if s.IsActive then
      let s2 := { SnapshotGuardianSlot s live with guardianGuid := 0, dismissed := true }
      saveGuardianToDb { st with slots := st.slots.set i s2 } i
    else st

/-- Tesseract gossip `TESSERACT_ACTION_RELEASE`: guard `slot <
MAX_GUARDIAN_SLOTS`, clear the slot, delete the durable row. -/
def applyRelease (st : OwnerState) (i : Nat) : OwnerState :=
  if i < MAX_GUARDIAN_SLOTS then
    { slots := st.slots.set i emptySlot, db := st.db.set i none }
  else st

inductive GuardianOp where
  | captureOp (p : CapturePayload) (ok : Bool)
  | gmSpawnOp (p : CapturePayload) (ok : Bool)
  | loadOp
  | dismissOp (targetGuid : Nat) (live : Option LiveGuardian)
  | releaseOp (slot : Nat)
deriving DecidableEq, Repr

def guardianStep (m : Nat) (st : OwnerState) : GuardianOp → OwnerState
  | .captureOp p ok => applyCapture m st p ok
  | .gmSpawnOp p ok => applyCapture m st p ok
  | .loadOp => loadGuardians st
  | .dismissOp g live => applyDismiss st g live
  | .releaseOp i => applyRelease st i

def runGuardianOps (m : Nat) (ops : List GuardianOp) : OwnerState :=
  ops.foldl (fun st op => guardianStep m st op) initState

/-- Number of occupied slots in the fixed array. -/
def occupiedCount (st : OwnerState) : Nat :=
  ((List.range MAX_GUARDIAN_SLOTS).filter fun i => (slotAt st.slots i).IsOccupied).length

/-- The inductive invariant: the array and table keep their fixed size,
and no slot at an index at or above the configured maximum is occupied or
active or has a durable row. -/
def SlotsWithinCap (m : Nat) (st : OwnerState) : Prop :=
  st.slots.length = MAX_GUARDIAN_SLOTS ∧ st.db.length = MAX_GUARDIAN_SLOTS ∧
  ∀ i, m ≤ i →
    (slotAt st.slots i).IsOccupied = false ∧
    (slotAt st.slots i).IsActive = false ∧
    dbAt st.db i = none

/-! Auxiliary lemmas for the slot-cap invariant. -/

theorem slotAt_set_ne (slots : List GuardianSlotData) (i j : Nat)
    (s : GuardianSlotData) (h : i ≠ j) :
    slotAt (slots.set i s) j = slotAt slots j := by
  simp [slotAt, List.getD_eq_getElem?_getD, List.getElem?_set_ne h]

theorem slotAt_set_self (slots : List GuardianSlotData) (i : Nat)
    (s : GuardianSlotData) (h : i < slots.length) :
    slotAt (slots.set i s) i = s := by
  simp [slotAt, List.getD_eq_getElem?_getD, List.getElem?_set_eq_of_lt s h]

theorem dbAt_set_ne (db : List (Option GuardianSlotData)) (i j : Nat)
    (r : Option GuardianSlotData) (h : i ≠ j) :
    dbAt (db.set i r) j = dbAt db j := by
  simp [dbAt, List.getD_eq_getElem?_getD, List.getElem?_set_ne h]

theorem dbAt_set_self (db : List (Option GuardianSlotData)) (i : Nat)
    (r : Option GuardianSlotData) (h : i < db.length) :
    dbAt (db.set i r) i = r := by
  simp [dbAt, List.getD_eq_getElem?_getD, List.getElem?_set_eq_of_lt r h]

theorem slotAt_replicate_empty (n i : Nat) :
    slotAt (List.replicate n emptySlot) i = emptySlot := by
  simp only [slotAt, List.getD_eq_getElem?_getD, List.getElem?_replicate]
  split <;> rfl

theorem dbAt_replicate_none (n i : Nat) :
    dbAt (List.replicate n (none : Option GuardianSlotData)) i = none := by
  simp only [dbAt, List.getD_eq_getElem?_getD, List.getElem?_replicate]
  split <;> rfl

theorem slotAt_map_range (f : Nat → GuardianSlotData) (n j : Nat) :
    slotAt ((List.range n).map f) j = if j < n then f j else emptySlot := by
  by_cases h : j < n
  · rw [if_pos h]
    have hlen : j < ((List.range n).map f).length := by simpa using h
    rw [slotAt, List.getD_eq_getElem _ _ hlen]
    simp
  · rw [if_neg h]
    rw [slotAt, List.getD_eq_default]
    simpa using h

theorem findEmptySlotFrom_spec (slots : List GuardianSlotData) :
    ∀ k i j, FindEmptySlotFrom slots i k = some j →
      i ≤ j ∧ j < i + k ∧ (slotAt slots j).IsOccupied = false ∧
      ∀ l, i ≤ l → l < j → (slotAt slots l).IsOccupied = true := by
  intro k
  induction k with
  | zero =>
    intro i j h
    simp [FindEmptySlotFrom] at h
  | succ k ih =>
    intro i j h
    unfold FindEmptySlotFrom at h
    by_cases hocc : (slotAt slots i).IsOccupied = true
    · rw [if_pos hocc] at h
      obtain ⟨h1, h2, h3, h4⟩ := ih (i + 1) j h
      refine ⟨by omega, by omega, h3, ?_⟩
      intro l hl1 hl2
      rcases Nat.lt_or_ge l (i + 1) with hl | hl
      · have : l = i := by omega
        rw [this]
        exact hocc
      · exact h4 l hl hl2
    · rw [if_neg hocc] at h
      have hj : i = j := by
        simpa using h
      subst hj
      refine ⟨Nat.le_refl i, by omega, by simpa using hocc, ?_⟩
      intro l hl1 hl2
      omega

theorem findEmptySlot_spec (m : Nat) (slots : List GuardianSlotData) (i : Nat)
    (h : FindEmptySlot m slots = some i) :
    i < m ∧ (slotAt slots i).guardianEntry = 0 ∧
    (slotAt slots i).IsOccupied = false ∧
    ∀ j, j < i → (slotAt slots j).IsOccupied = true := by
  obtain ⟨h1, h2, h3, h4⟩ := findEmptySlotFrom_spec slots m 0 i h
  refine ⟨by omega, ?_, h3, fun j hj => h4 j (Nat.zero_le j) hj⟩
  have := h3
  unfold GuardianSlotData.IsOccupied at this
  simpa using this

/-- Invariant-preservation helper: a state whose slots and rows agree with
an invariant-satisfying state at every index at or above the cap satisfies
the invariant. -/
theorem inv_of_agree (m : Nat) (st st2 : OwnerState) (hinv : SlotsWithinCap m st)
    (hl : st2.slots.length = MAX_GUARDIAN_SLOTS)
    (hdb : st2.db.length = MAX_GUARDIAN_SLOTS)
    (hsame : ∀ j, m ≤ j →
      slotAt st2.slots j = slotAt st.slots j ∧ dbAt st2.db j = dbAt st.db j) :
    SlotsWithinCap m st2 := by
  refine ⟨hl, hdb, ?_⟩
  intro i hi
  obtain ⟨hs, hd⟩ := hsame i hi
  obtain ⟨_, _, h3⟩ := hinv
  rw [hs, hd]
  exact h3 i hi

theorem inv_init (m : Nat) : SlotsWithinCap m initState := by
  refine ⟨by simp [initState], by simp [initState], ?_⟩
  intro i _
  simp only [initState]
  rw [slotAt_replicate_empty, dbAt_replicate_none]
  exact ⟨by decide, by decide, rfl⟩

theorem inv_saveGuardianToDb (m : Nat) (st : OwnerState) (i : Nat)
    (hinv : SlotsWithinCap m st) (hi : i < m) :
    SlotsWithinCap m (saveGuardianToDb st i) := by
  unfold saveGuardianToDb
  dsimp only
  split
  · exact hinv
  · refine inv_of_agree m st _ hinv ?_ ?_ ?_
    · simp [hinv.1]
    · simp [hinv.2.1]
    · intro j hj
      have hne : i ≠ j := by omega
      exact ⟨slotAt_set_ne _ _ _ _ hne, dbAt_set_ne _ _ _ _ hne⟩

theorem inv_applyCapture (m : Nat) (st : OwnerState) (p : CapturePayload)
    (ok : Bool) (hinv : SlotsWithinCap m st) :
    SlotsWithinCap m (applyCapture m st p ok) := by
  unfold applyCapture
  cases hfind : FindEmptySlot m st.slots with
  | none => exact hinv
  | some i =>
    have hi : i < m := (findEmptySlot_spec m st.slots i hfind).1
    cases ok with
    | false => exact hinv
    | true =>
      dsimp only
      apply inv_saveGuardianToDb m _ i _ hi
      refine inv_of_agree m st _ hinv (by simp [hinv.1]) hinv.2.1 ?_
      intro j hj
      have hne : i ≠ j := by omega
      exact ⟨slotAt_set_ne _ _ _ _ hne, rfl⟩

theorem inv_loadGuardians (m : Nat) (st : OwnerState) (hinv : SlotsWithinCap m st) :
    SlotsWithinCap m (loadGuardians st) := by
  refine inv_of_agree m st _ hinv (by simp [loadGuardians]) hinv.2.1 ?_
  intro j hj
  refine ⟨?_, rfl⟩
  unfold loadGuardians
  dsimp only
  rw [slotAt_map_range]
  by_cases hj4 : j < MAX_GUARDIAN_SLOTS
  · rw [if_pos hj4]
    have hdb := (hinv.2.2 j hj).2.2
    rw [hdb]
  · rw [if_neg hj4]
    have hlen : st.slots.length ≤ j := by
      rw [hinv.1]; omega
    rw [slotAt, List.getD_eq_default _ _ hlen]

theorem inv_applyDismiss (m : Nat) (st : OwnerState) (g : Nat)
    (live : Option LiveGuardian) (hinv : SlotsWithinCap m st) :
    SlotsWithinCap m (applyDismiss st g live) := by
  unfold applyDismiss
  cases hfind : FindSlotByGuid st.slots g with
  | none => exact hinv
  | some i =>
    dsimp only
    split
    · rename_i hact
      have hi : i < m := by
        by_contra hge
        have := (hinv.2.2 i (by omega)).2.1
        rw [this] at hact
        exact absurd hact (by simp)
      apply inv_saveGuardianToDb m _ i _ hi
      refine inv_of_agree m st _ hinv (by simp [hinv.1]) hinv.2.1 ?_
      intro j hj
      have hne : i ≠ j := by omega
      exact ⟨slotAt_set_ne _ _ _ _ hne, rfl⟩
    · exact hinv

theorem inv_applyRelease (m : Nat) (st : OwnerState) (i : Nat)
    (hinv : SlotsWithinCap m st) :
    SlotsWithinCap m (applyRelease st i) := by
  unfold applyRelease
  split
  · rename_i hi4
    refine ⟨by simp [hinv.1], by simp [hinv.2.1], ?_⟩
    intro j hj
    by_cases hij : i = j
    · subst hij
      rw [slotAt_set_self _ _ _ (by rw [hinv.1]; exact hi4),
        dbAt_set_self _ _ _ (by rw [hinv.2.1]; exact hi4)]
      exact ⟨rfl, rfl, rfl⟩
    · rw [slotAt_set_ne _ _ _ _ hij, dbAt_set_ne _ _ _ _ hij]
      exact hinv.2.2 j hj
  · exact hinv

theorem inv_guardianStep (m : Nat) (st : OwnerState) (op : GuardianOp)
    (hinv : SlotsWithinCap m st) :
    SlotsWithinCap m (guardianStep m st op) := by
  cases op with
  | captureOp p ok => exact inv_applyCapture m st p ok hinv
  | gmSpawnOp p ok => exact inv_applyCapture m st p ok hinv
  | loadOp => exact inv_loadGuardians m st hinv
  | dismissOp g live => exact inv_applyDismiss m st g live hinv
  | releaseOp i => exact inv_applyRelease m st i hinv

theorem inv_runOps (m : Nat) (ops : List GuardianOp) :
    SlotsWithinCap m (runGuardianOps m ops) := by
  suffices h : ∀ (l : List GuardianOp) (st : OwnerState), SlotsWithinCap m st →
      SlotsWithinCap m (l.foldl (fun st op => guardianStep m st op) st) by
    exact h ops initState (inv_init m)
  intro l
  induction l with
  | nil => intro st h; exact h
  | cons op rest ih =>
    intro st h
    exact ih _ (inv_guardianStep m st op h)

theorem occupiedCount_le (m : Nat) (st : OwnerState)
    (hinv : SlotsWithinCap m st) : occupiedCount st ≤ m := by
  have key : ∀ n,
      ((List.range n).filter fun i => (slotAt st.slots i).IsOccupied).length ≤ min m n := by
    intro n
    induction n with
    | zero => simp
    | succ n ih =>
      rw [List.range_succ, List.filter_append]
      rw [List.length_append]
      by_cases hP : (slotAt st.slots n).IsOccupied = true
      · have hn : n < m := by
          by_contra hge
          have := (hinv.2.2 n (by omega)).1
          rw [this] at hP
          exact absurd hP (by simp)
        simp only [List.filter_cons, List.filter_nil, hP, if_pos]
        simp only [List.length_cons, List.length_nil]
        omega
      · simp only [List.filter_cons, List.filter_nil, hP]
        simp only [Bool.false_eq_true, if_false, List.length_nil]
        omega
  have := key MAX_GUARDIAN_SLOTS
  unfold occupiedCount
  omega

/-! ## Claim C4 — slot cap and `FindEmptySlot` -/

/-- C4: for every owner and every sequence of capture, GM-spawn,
load-from-storage, dismiss and release operations starting from the empty
registry, at most `maxSlots` slots are ever occupied; and `FindEmptySlot`
returns the first index below the configured maximum whose slot has
identity 0 — never the index of an occupied slot. -/
theorem slotCapAndFindEmptySlot (m : Nat) (ops : List GuardianOp)
    (_hm : 1 ≤ m ∧ m ≤ MAX_GUARDIAN_SLOTS) :
    occupiedCount (runGuardianOps m ops) ≤ m ∧
    (∀ slots i, FindEmptySlot m slots = some i →
      i < m ∧ (slotAt slots i).guardianEntry = 0 ∧
      (slotAt slots i).IsOccupied = false ∧
      ∀ j, j < i → (slotAt slots j).IsOccupied = true) := by
  refine ⟨occupiedCount_le m _ (inv_runOps m ops), ?_⟩
  intro slots i h
  exact findEmptySlot_spec m slots i h

/-- Concrete operation sequence for the `slotCapAndFindEmptySlot`
witness: two captures, a dismiss and a release under a cap of 2. -/
def opsW : List GuardianOp :=
  [ .captureOp { entry := 42, level := 10, guid := 5, health := 100, power := 0,
                 powerType := 1, displayId := 0, equipmentId := 0,
                 spells := [1, 0, 0, 0, 0, 0, 0, 0] } true,
    .gmSpawnOp { entry := 43, level := 11, guid := 6, health := 90, power := 50,
                 powerType := 0, displayId := 7, equipmentId := 1,
                 spells := [0, 0, 0, 0, 0, 0, 0, 0] } true,
    .dismissOp 5 (some { entry := 42, level := 10, maxHealth := 100, health := 60,
                         maxPower := 0, power := 0, powerType := 1, alive := true,
                         archetype := ARCHETYPE_DPS,
                         spellSlots := [1, 0, 0, 0, 0, 0, 0, 0] }),
    .releaseOp 1,
    .loadOp ]

/-- Witness for `slotCapAndFindEmptySlot` at cap 2 and a concrete
operation sequence. -/
theorem slotCapAndFindEmptySlot_witness :
    (1 ≤ 2 ∧ 2 ≤ MAX_GUARDIAN_SLOTS) ∧
      (occupiedCount (runGuardianOps 2 opsW) ≤ 2 ∧
       ∀ slots i, FindEmptySlot 2 slots = some i →
         i < 2 ∧ (slotAt slots i).guardianEntry = 0 ∧
         (slotAt slots i).IsOccupied = false ∧
         ∀ j, j < i → (slotAt slots j).IsOccupied = true) :=
  ⟨by decide, slotCapAndFindEmptySlot 2 opsW (by decide)⟩

end CreatureCapture
